import Mathlib

set_option maxHeartbeats 1000000

/-!
Verification of the ReShade FX AST core (source/FX/ParserNodes.hpp): the
node taxonomy and its discriminant tags, the node-tree factory, the
page-based arena allocator (`nodetree::memory_pool`), the semantic type
descriptor (`Nodes::Type`) with its classification predicates and qualifier
bitmask, and the defaulted render-state payloads (`Pass::States`,
`Variable::Properties`).

Machine integers are modelled as `Nat`/`Int`; `size_t` arithmetic that can
wrap is taken modulo `2 ^ 64` where it occurs.
-/

/-- The `nodeid` discriminant enum (ParserNodes.hpp lines 12-47): `unknown`
plus the 29 concrete node shapes. -/
inductive nodeid
  | unknown
  | LValue
  | Literal
  | Unary
  | Binary
  | Intrinsic
  | Conditional
  | Assignment
  | Sequence
  | Call
  | Constructor
  | Swizzle
  | FieldSelection
  | InitializerList
  | Compound
  | DeclaratorList
  | ExpressionStatement
  | If
  | Switch
  | Case
  | For
  | While
  | Return
  | Jump
  | Annotation
  | Variable
  | Struct
  | Function
  | Pass
  | Technique
deriving DecidableEq

/-- Modelled from the spec: the source-location type supplied by `Lexer.hpp`
(which is not among the repository files), "a stream of recognized tokens
each carrying a source location (file/line/column)". Its internals do not
matter to any claim; only that it is a value type with a default state. -/
structure location where
  file : String
  line : Nat
  column : Nat
deriving DecidableEq

/-- The default-constructed `location()` used by the `node` protected
constructor (line 57). -/
def locationDefault : location :=
  { file := "", line := 0, column := 0 }

/-- The 29 concrete node shapes of the closed taxonomy (the structs declared
in namespace `Nodes`, lines 277-784, plus their `nodeid` tags). -/
inductive NodeShape
  | LValue
  | Literal
  | Unary
  | Binary
  | Intrinsic
  | Conditional
  | Assignment
  | Sequence
  | Call
  | Constructor
  | Swizzle
  | FieldSelection
  | InitializerList
  | Compound
  | DeclaratorList
  | ExpressionStatement
  | If
  | Switch
  | Case
  | For
  | While
  | Return
  | Jump
  | Annotation
  | Variable
  | Struct
  | Function
  | Pass
  | Technique
deriving DecidableEq, Fintype

/-- The tag each concrete shape's own default constructor passes to the
`node(nodeid)` protected constructor (e.g. `LValue() : Expression(nodeid::LValue)`,
line 281; likewise for every other shape). The tag is fixed by the shape,
never caller-supplied. -/
def tagOf : NodeShape → nodeid
  | NodeShape.LValue => nodeid.LValue
  | NodeShape.Literal => nodeid.Literal
  | NodeShape.Unary => nodeid.Unary
  | NodeShape.Binary => nodeid.Binary
  | NodeShape.Intrinsic => nodeid.Intrinsic
  | NodeShape.Conditional => nodeid.Conditional
  | NodeShape.Assignment => nodeid.Assignment
  | NodeShape.Sequence => nodeid.Sequence
  | NodeShape.Call => nodeid.Call
  | NodeShape.Constructor => nodeid.Constructor
  | NodeShape.Swizzle => nodeid.Swizzle
  | NodeShape.FieldSelection => nodeid.FieldSelection
  | NodeShape.InitializerList => nodeid.InitializerList
  | NodeShape.Compound => nodeid.Compound
  | NodeShape.DeclaratorList => nodeid.DeclaratorList
  | NodeShape.ExpressionStatement => nodeid.ExpressionStatement
  | NodeShape.If => nodeid.If
  | NodeShape.Switch => nodeid.Switch
  | NodeShape.Case => nodeid.Case
  | NodeShape.For => nodeid.For
  | NodeShape.While => nodeid.While
  | NodeShape.Return => nodeid.Return
  | NodeShape.Jump => nodeid.Jump
  | NodeShape.Annotation => nodeid.Annotation
  | NodeShape.Variable => nodeid.Variable
  | NodeShape.Struct => nodeid.Struct
  | NodeShape.Function => nodeid.Function
  | NodeShape.Pass => nodeid.Pass
  | NodeShape.Technique => nodeid.Technique

/-- Shapes declared `struct X : public Expression` (lines 277-529). -/
def isExpression : NodeShape → Bool
  | NodeShape.LValue => true
  | NodeShape.Literal => true
  | NodeShape.Unary => true
  | NodeShape.Binary => true
  | NodeShape.Intrinsic => true
  | NodeShape.Conditional => true
  | NodeShape.Assignment => true
  | NodeShape.Sequence => true
  | NodeShape.Call => true
  | NodeShape.Constructor => true
  | NodeShape.Swizzle => true
  | NodeShape.FieldSelection => true
  | NodeShape.InitializerList => true
  | _ => false

/-- Shapes declared `struct X : public Statement` (lines 532-625). -/
def isStatement : NodeShape → Bool
  | NodeShape.Compound => true
  | NodeShape.DeclaratorList => true
  | NodeShape.ExpressionStatement => true
  | NodeShape.If => true
  | NodeShape.Switch => true
  | NodeShape.Case => true
  | NodeShape.For => true
  | NodeShape.While => true
  | NodeShape.Return => true
  | NodeShape.Jump => true
  | _ => false

/-- Shapes declared `struct X : public Declaration` (lines 637-784). Note the
shape tagged `nodeid::Annotation` is declared `struct Annotation : public node`
(line 628) and so is in none of the three families. -/
def isDeclaration : NodeShape → Bool
  | NodeShape.Variable => true
  | NodeShape.Struct => true
  | NodeShape.Function => true
  | NodeShape.Pass => true
  | NodeShape.Technique => true
  | _ => false

/-- The `node` header every concrete shape embeds (lines 48-60): the
discriminant tag and the source location. -/
structure NodeHeader where
  id : nodeid
  loc : location
deriving DecidableEq

/-- The header state after a shape's own default construction: the shape's
fixed tag and a default-constructed location (`node(nodeid id) : id(id),
location()`, line 57). -/
def defaultHeader (s : NodeShape) : NodeHeader :=
  { id := tagOf s, loc := locationDefault }

/-- `nodetree::make_node<T>(location)` (lines 64-71): default-constructs the
shape through the pool and then stamps its `location` field with the
argument. The tag is whatever the shape's own constructor set. -/
def make_node (s : NodeShape) (L : location) : NodeHeader :=
  { defaultHeader s with loc := L }

/-! ## The arena (`nodetree::memory_pool`)

A page is a zero-initialised byte buffer (`memory(size, 0)`, line 128) with a
bump cursor. `add<T>` is modelled at slot granularity: what matters to the
claims is each allocation's total slot footprint
`size = sizeof(nodeinfo) - sizeof(node) + sizeof(T)` in bytes, the page
capacities and the cursor arithmetic, so a page is its capacity plus the
ordered list of recorded slot sizes (each slot's `nodeinfo::size`). -/

/-- One page of the pool (lines 126-134): `capacity` is `memory.size()`,
`slots` the footprints recorded in the page's slots in allocation order, and
`cursor` the next free offset (always the sum of `slots`). -/
structure page where
  capacity : Nat
  slots : List Nat
  cursor : Nat
deriving DecidableEq

/-- `memory_pool::add<T>` for one allocation of slot footprint `size`
(lines 84-109): `std::find_if` takes the first page with
`cursor + size < memory.size()` (strict), and if none fits a fresh page of
capacity `max 4096 size` is appended (`std::max(size_t(4096), size)`,
line 96); the slot is placed at the chosen page's cursor and the cursor
advances by the recorded slot size. -/
def addSlot (size : Nat) : List page → List page
  | [] => [{ capacity := max 4096 size, slots := [size], cursor := size }]
  | p :: ps =>
    if p.cursor + size < p.capacity then
      { p with slots := p.slots ++ [size], cursor := p.cursor + size } :: ps
    else
      p :: addSlot size ps

/-- A whole allocation sequence, first footprint first. -/
def addAll (sizes : List Nat) (pool : List page) : List page :=
  sizes.foldl (fun ps f => addSlot f ps) pool

/-- `size_t` wraps at 2^64. -/
def SIZE_MOD : Nat := 2 ^ 64

/-- The destructor walk of `memory_pool::clear` over one page (lines 110-123):

`do { node->dtor(...); node += node->size; } while (node->size > 0 && (page.cursor -= node->size) > 0);`

The result is (number of destructor invocations, `true` iff every size-field
read stayed inside the page buffer). Arguments: the slots not yet destroyed
(current slot first), the page's mutating `cursor`, the page `capacity`, and
the current slot's byte offset. Reading the size field just past the final
slot is in bounds (and reads the buffer's untouched zero fill) exactly when
the final cursor is strictly below the capacity: every slot footprint and
every page capacity the source produces is a multiple of 8 = sizeof(size_t),
so strictly-below leaves the whole 8-byte field inside the buffer, while a
cursor equal to the capacity puts the read past the end of `memory`. An
empty page (never built by `add`) would invoke the null `dtor` of the zero
fill at once, also undefined. -/
def clearWalk : List Nat → Nat → Nat → Nat → Nat × Bool
  | [], _, _, _ => (0, false)
  | [s], _, capacity, offset =>
    if offset + s < capacity then (1, true) else (1, false)
  | s :: s2 :: rest, cursor, capacity, offset =>
    if 0 < s2 then
      let cursor2 := (cursor + (SIZE_MOD - s2 % SIZE_MOD)) % SIZE_MOD
      if 0 < cursor2 then
        let r := clearWalk (s2 :: rest) cursor2 capacity (offset + s)
        (r.1 + 1, r.2)
      else (1, true)
    else (1, true)

/-- `clear` on one page: the walk starts at the front of the buffer. -/
def clearPage (p : page) : Nat × Bool :=
  clearWalk p.slots p.cursor p.capacity 0

/-- `memory_pool::clear` (lines 110-123): the walk over every page; total
destructor invocations, and whether every size-field read was in bounds. -/
def clearPool (pool : List page) : Nat × Bool :=
  pool.foldl (fun acc p => ((clearPage p).1 + acc.1, (clearPage p).2 && acc.2)) (0, true)

/-! ## The semantic type descriptor (`Nodes::Type`) -/

/-- `Nodes::Type::Class` (lines 150-165), in declaration order; the C++
`enum class` gives them the underlying values 0..12 that the range
comparisons in `IsTexture`/`IsSampler` use. -/
inductive TyClass
  | Void
  | Bool
  | Int
  | Uint
  | Float
  | Sampler1D
  | Sampler2D
  | Sampler3D
  | Texture1D
  | Texture2D
  | Texture3D
  | Struct
  | String
deriving DecidableEq, Fintype

/-- The underlying enumerator value. -/
def TyClass.toNat : TyClass → Nat
  | TyClass.Void => 0
  | TyClass.Bool => 1
  | TyClass.Int => 2
  | TyClass.Uint => 3
  | TyClass.Float => 4
  | TyClass.Sampler1D => 5
  | TyClass.Sampler2D => 6
  | TyClass.Sampler3D => 7
  | TyClass.Texture1D => 8
  | TyClass.Texture2D => 9
  | TyClass.Texture3D => 10
  | TyClass.Struct => 11
  | TyClass.String => 12

/-! The `Type::Qualifier` bit values (lines 166-186). `InOut` is the
combination `In | Out`, not a fresh bit. -/
namespace Qualifier

def Extern : Nat := 1 <<< 0

def Static : Nat := 1 <<< 1

def Uniform : Nat := 1 <<< 2

def Volatile : Nat := 1 <<< 3

def Precise : Nat := 1 <<< 4

def In : Nat := 1 <<< 5

def Out : Nat := 1 <<< 6

def InOut : Nat := In ||| Out

def Const : Nat := 1 <<< 8

def Linear : Nat := 1 <<< 10

def NoPerspective : Nat := 1 <<< 11

def Centroid : Nat := 1 <<< 12

def NoInterpolation : Nat := 1 <<< 13

end Qualifier

/-- `Nodes::Type` (lines 241-245): base class, qualifier bitmask, the 4-bit
`Rows`/`Cols` fields (values 0..15), array length, and the struct
back-reference (a non-owning pointer, modelled as an optional handle). The
C++ name `Type` is a Lean keyword, hence `Ty`. -/
structure Ty where
  BaseClass : TyClass
  Qualifiers : Nat
  Rows : Nat
  Cols : Nat
  ArrayLength : Int
  Definition : Option Nat
deriving DecidableEq

/-- `Type::IsArray` (lines 188-191): `ArrayLength != 0`. -/
def Ty.IsArray (t : Ty) : Bool :=
  decide (t.ArrayLength ≠ 0)

/-- `Type::IsMatrix` (lines 192-195): `Rows >= 1 && Cols > 1`. -/
def Ty.IsMatrix (t : Ty) : Bool :=
  decide (1 ≤ t.Rows) && decide (1 < t.Cols)

/-- `Type::IsVector` (lines 196-199): `Rows > 1 && !IsMatrix()`. -/
def Ty.IsVector (t : Ty) : Bool :=
  decide (1 < t.Rows) && ! t.IsMatrix

/-- `Type::IsBoolean` (lines 212-215). -/
def Ty.IsBoolean (t : Ty) : Bool :=
  decide (t.BaseClass = TyClass.Bool)

/-- `Type::IsIntegral` (lines 216-219). -/
def Ty.IsIntegral (t : Ty) : Bool :=
  decide (t.BaseClass = TyClass.Int) || decide (t.BaseClass = TyClass.Uint)

/-- `Type::IsFloatingPoint` (lines 220-223). -/
def Ty.IsFloatingPoint (t : Ty) : Bool :=
  decide (t.BaseClass = TyClass.Float)

/-- `Type::IsNumeric` (lines 204-207). -/
def Ty.IsNumeric (t : Ty) : Bool :=
  t.IsBoolean || t.IsIntegral || t.IsFloatingPoint

/-- `Type::IsScalar` (lines 200-203): `!IsArray() && !IsMatrix() && !IsVector() && IsNumeric()`. -/
def Ty.IsScalar (t : Ty) : Bool :=
  ! t.IsArray && ! t.IsMatrix && ! t.IsVector && t.IsNumeric

/-- `Type::IsVoid` (lines 208-211). -/
def Ty.IsVoid (t : Ty) : Bool :=
  decide (t.BaseClass = TyClass.Void)

/-- `Type::IsTexture` (lines 224-227): `BaseClass >= Class::Texture1D &&
BaseClass <= Class::Texture2D`, a comparison of the underlying values. -/
def Ty.IsTexture (t : Ty) : Bool :=
  decide (TyClass.toNat TyClass.Texture1D ≤ t.BaseClass.toNat) &&
    decide (t.BaseClass.toNat ≤ TyClass.toNat TyClass.Texture2D)

/-- `Type::IsSampler` (lines 228-231): `BaseClass >= Class::Sampler1D &&
BaseClass <= Class::Sampler3D`. -/
def Ty.IsSampler (t : Ty) : Bool :=
  decide (TyClass.toNat TyClass.Sampler1D ≤ t.BaseClass.toNat) &&
    decide (t.BaseClass.toNat ≤ TyClass.toNat TyClass.Sampler3D)

/-- `Type::IsStruct` (lines 232-235). -/
def Ty.IsStruct (t : Ty) : Bool :=
  decide (t.BaseClass = TyClass.Struct)

/-- `Type::HasQualifier` (lines 236-239): `(Qualifiers & qualifier) == qualifier`. -/
def Ty.HasQualifier (t : Ty) (qualifier : Nat) : Bool :=
  decide (t.Qualifiers &&& qualifier = qualifier)

/-! ## Render-state payloads (`Pass::States`, `Variable::Properties`) -/

/-! The anonymous state-value enum of `Pass::States` (lines 719-756): blend
factors, blend ops, stencil ops and comparison functions share one unscoped
enum, so several names alias one value. -/
namespace PassStates

def NONE : Nat := 0

def ZERO : Nat := 0

def ONE : Nat := 1

def SRCCOLOR : Nat := 2

def INVSRCCOLOR : Nat := 3

def SRCALPHA : Nat := 4

def INVSRCALPHA : Nat := 5

def DESTALPHA : Nat := 6

def INVDESTALPHA : Nat := 7

def DESTCOLOR : Nat := 8

def INVDESTCOLOR : Nat := 9

def ADD : Nat := 1

def SUBTRACT : Nat := 2

def REVSUBTRACT : Nat := 3

def MIN : Nat := 4

def MAX : Nat := 5

def KEEP : Nat := 1

def REPLACE : Nat := 3

def INVERT : Nat := 4

def INCRSAT : Nat := 5

def DECRSAT : Nat := 6

def INCR : Nat := 7

def DECR : Nat := 8

def NEVER : Nat := 1

def LESS : Nat := 2

def EQUAL : Nat := 3

def LESSEQUAL : Nat := 4

def GREATER : Nat := 5

def NOTEQUAL : Nat := 6

def GREATEREQUAL : Nat := 7

def ALWAYS : Nat := 8

end PassStates

/-- `Pass::States` (lines 758-766): the fixed-function pipeline snapshot.
Pointer members are non-owning references, modelled as optional handles. -/
structure States where
  RenderTargets : List (Option Nat)
  VertexShader : Option Nat
  PixelShader : Option Nat
  SRGBWriteEnable : Bool
  BlendEnable : Bool
  DepthEnable : Bool
  StencilEnable : Bool
  RenderTargetWriteMask : Nat
  DepthWriteMask : Nat
  StencilReadMask : Nat
  StencilWriteMask : Nat
  BlendOp : Nat
  BlendOpAlpha : Nat
  SrcBlend : Nat
  DestBlend : Nat
  DepthFunc : Nat
  StencilFunc : Nat
  StencilRef : Nat
  StencilOpPass : Nat
  StencilOpFail : Nat
  StencilOpDepthFail : Nat
deriving DecidableEq

/-- The default constructor `States()` (line 758): `RenderTargets()` value-
initialises the 8 pointers to null, and every scalar is set as in the
member-initialiser list. -/
def defaultStates : States :=
  { RenderTargets := List.replicate 8 none
    VertexShader := none
    PixelShader := none
    SRGBWriteEnable := false
    BlendEnable := false
    DepthEnable := false
    StencilEnable := false
    RenderTargetWriteMask := 0xF
    DepthWriteMask := 1
    StencilReadMask := 0xFF
    StencilWriteMask := 0xFF
    BlendOp := PassStates.ADD
    BlendOpAlpha := PassStates.ADD
    SrcBlend := PassStates.ONE
    DestBlend := PassStates.ZERO
    DepthFunc := PassStates.LESS
    StencilFunc := PassStates.ALWAYS
    StencilRef := 0
    StencilOpPass := PassStates.KEEP
    StencilOpFail := PassStates.KEEP
    StencilOpDepthFail := PassStates.KEEP }

/-! The anonymous enum of `Variable::Properties` (lines 641-671): pixel
formats, filter modes and address modes (again one unscoped enum, with
`WRAP = REPEAT = 1`). -/
namespace Props

def NONE : Nat := 0

def R8 : Nat := 50

def R16F : Nat := 111

def R32F : Nat := 114

def RG8 : Nat := 51

def RG16 : Nat := 34

def RG16F : Nat := 112

def RG32F : Nat := 115

def RGBA8 : Nat := 32

def RGBA16 : Nat := 36

def RGBA16F : Nat := 113

def RGBA32F : Nat := 116

def DXT1 : Nat := 827611204

def DXT3 : Nat := 861165636

def DXT5 : Nat := 894720068

def LATC1 : Nat := 826889281

def LATC2 : Nat := 843666497

def POINT : Nat := 1

def LINEAR : Nat := 2

def ANISOTROPIC : Nat := 3

def WRAP : Nat := 1

def REPEAT : Nat := 1

def MIRROR : Nat := 2

def CLAMP : Nat := 3

def BORDER : Nat := 4

end Props

/-- `FLT_MAX`, the default `MaxLOD`: the largest finite single-precision
value, 2^128 - 2^104, as an exact rational. -/
def FLT_MAX : Rat := 340282346638528859811704183484516925440

/-- `Variable::Properties` (lines 677-683): the texture/sampler resource
description. The three `float` members are carried as exact rationals (the
defaults 0, FLT_MAX and 0.0f are all exactly representable); no arithmetic
is ever performed on them in this layer. -/
structure Properties where
  Texture : Option Nat
  Width : Nat
  Height : Nat
  Depth : Nat
  MipLevels : Nat
  Format : Nat
  SRGBTexture : Bool
  AddressU : Nat
  AddressV : Nat
  AddressW : Nat
  MinFilter : Nat
  MagFilter : Nat
  MipFilter : Nat
  MaxAnisotropy : Nat
  MinLOD : Rat
  MaxLOD : Rat
  MipLODBias : Rat
deriving DecidableEq

/-- The default constructor `Properties()` (line 673). -/
def defaultProperties : Properties :=
  { Texture := none
    Width := 1
    Height := 1
    Depth := 1
    MipLevels := 1
    Format := Props.RGBA8
    SRGBTexture := false
    AddressU := Props.CLAMP
    AddressV := Props.CLAMP
    AddressW := Props.CLAMP
    MinFilter := Props.LINEAR
    MagFilter := Props.LINEAR
    MipFilter := Props.LINEAR
    MaxAnisotropy := 1
    MinLOD := 0
    MaxLOD := FLT_MAX
    MipLODBias := 0 }

/-! ## Concrete node payloads and their default constructors

Each structure carries the payload fields the shape's C++ default constructor
initialises (member-initialiser list, `memset`, or the default constructor of
a `std::string`/`std::vector` member). Non-owning node pointers are optional
handles. POD members the constructor leaves indeterminate in C++ (such as an
Expression's embedded result `Type`, or `If`'s branch pointers) are not
modelled: they have no defined value to state anything about. The common
node header is modelled once by `NodeHeader`/`make_node` above. -/

namespace FX

/-- The payload of `struct Annotation` (lines 628-636); its `Literal *Value`
member is left indeterminate by the constructor and is not modelled. -/
structure AnnotationNode where
  Name : String
deriving DecidableEq

/-- `Nodes::LValue` payload (lines 277-284). -/
structure LValue where
  Reference : Option Nat
deriving DecidableEq

/-- `LValue() : Expression(nodeid::LValue), Reference(nullptr)` (line 281). -/
def mkLValue : LValue :=
  { Reference := none }

/-- `Nodes::Literal` payload (lines 285-301): the 16-wide union buffer viewed
through its `Int[16]` member, plus the string payload. -/
structure Literal where
  Value : List Int
  StringValue : String
deriving DecidableEq

/-- `Literal()` (lines 297-300): `memset(&Value, 0, sizeof(Value))` zeroes
all 16 union slots; `StringValue` default-constructs empty. -/
def mkLiteral : Literal :=
  { Value := List.replicate 16 0, StringValue := "" }

/-- `Nodes::Call` payload (lines 485-494). -/
structure Call where
  CalleeName : String
  Callee : Option Nat
  Arguments : List Nat
deriving DecidableEq

/-- `Call() : Expression(nodeid::Call), Callee(nullptr)` (line 491);
`CalleeName` and `Arguments` default-construct empty. -/
def mkCall : Call :=
  { CalleeName := "", Callee := none, Arguments := [] }

/-- `Nodes::FieldSelection` payload (lines 513-521). -/
structure FieldSelection where
  Operand : Option Nat
  Field : Option Nat
deriving DecidableEq

/-- `FieldSelection() : ..., Operand(nullptr), Field(nullptr)` (line 518). -/
def mkFieldSelection : FieldSelection :=
  { Operand := none, Field := none }

/-- `Nodes::Swizzle` payload (lines 503-512): operand plus the four signed
component indices. -/
structure Swizzle where
  Operand : Option Nat
  Mask : List Int
deriving DecidableEq

/-- `Swizzle()` (lines 508-511): `Operand(nullptr)` and
`Mask[0] = Mask[1] = Mask[2] = Mask[3] = -1`. -/
def mkSwizzle : Swizzle :=
  { Operand := none, Mask := [-1, -1, -1, -1] }

/-- `Nodes::Variable` payload (lines 686-694); its embedded `Type` is left
indeterminate by the constructor and is not modelled. -/
structure Variable where
  Name : String
  Namespace : String
  Annotations : List AnnotationNode
  Semantic : String
  Properties : Properties
  Initializer : Option Nat
deriving DecidableEq

/-- `Variable() : Declaration(nodeid::Variable), Initializer(nullptr)`
(line 692); strings and the annotation vector default-construct empty, and
the `Properties` member runs its own default constructor. -/
def mkVariable : Variable :=
  { Name := "", Namespace := "", Annotations := [], Semantic := ""
    Properties := defaultProperties, Initializer := none }

/-- `Nodes::Function` payload (lines 704-714); its `ReturnType` is left
indeterminate by the constructor and is not modelled. -/
structure Function where
  Name : String
  Namespace : String
  Parameters : List Nat
  ReturnSemantic : String
  Definition : Option Nat
deriving DecidableEq

/-- `Function() : Declaration(nodeid::Function), Definition(nullptr)`
(line 711). -/
def mkFunction : Function :=
  { Name := "", Namespace := "", Parameters := [], ReturnSemantic := ""
    Definition := none }

end FX

/-! ## Helper lemmas -/

/-- The exact-match AND test in terms of individual bits. -/
lemma land_eq_self_iff_testBits (a q : Nat) :
    a &&& q = q ↔ ∀ i, q.testBit i = true → a.testBit i = true := by
  constructor
  · intro h i hq
    have h2 : (a &&& q).testBit i = q.testBit i := by rw [h]
    rw [Nat.testBit_land, hq, Bool.and_true] at h2
    exact h2
  · intro h
    apply Nat.eq_of_testBit_eq
    intro i
    rw [Nat.testBit_land]
    cases hq : q.testBit i with
    | false => rw [Bool.and_false]
    | true => rw [h i hq, Bool.true_and]

/-! ## The claims -/

/-- C1: the claim asserts that k allocations followed by `clear()` always run
exactly k destructors, "including a page created for a footprint larger than
4096 bytes that fills it exactly". The code violates this: a footprint of
4104 bytes creates a page of capacity `max 4096 4104 = 4104` whose cursor
equals its capacity, and the destructor walk, after running the single
destructor, reads the next size field at offset 4104 — one byte past the end
of the page's buffer (`clearPage` reports `false`). -/
theorem clear_reads_out_of_bounds_on_exactly_filled_page :
    addAll [4104] [] = [{ capacity := 4104, slots := [4104], cursor := 4104 }] ∧
      clearPool (addAll [4104] []) = (1, false) := by
  constructor
  · rfl
  · rfl

/-- C2 (counterexample): the nine classification outcomes are not mutually
exclusive — the value with `BaseClass = Void`, `Rows = 4`, `Cols = 4`,
`ArrayLength = 0` satisfies both `IsVoid` and `IsMatrix`, so "exactly one
holds" fails as stated. -/
theorem void_and_matrix_hold_together :
    (Ty.mk TyClass.Void 0 4 4 0 none).IsVoid = true ∧
      (Ty.mk TyClass.Void 0 4 4 0 none).IsMatrix = true := by
  constructor
  · rfl
  · rfl

/-- C2 (amended): what does hold for every TypeDescriptor value: at most one
of `IsScalar`/`IsVector`/`IsMatrix` is true; exactly one of `IsVoid` /
`IsNumeric` / `IsSampler` / `IsTexture` / `BaseClass = Texture3D` /
`IsStruct` / `BaseClass = String` is true; and any value with `Rows = 4`,
`Cols = 4`, `ArrayLength = 0` reports `IsMatrix = true`, `IsVector = false`,
`IsScalar = false`. -/
theorem classification_partition_amended :
    (∀ t : Ty,
      (t.IsScalar && t.IsVector) = false ∧ (t.IsScalar && t.IsMatrix) = false ∧
        (t.IsVector && t.IsMatrix) = false) ∧
    (∀ t : Ty,
      ([t.IsVoid, t.IsNumeric, t.IsSampler, t.IsTexture,
          decide (t.BaseClass = TyClass.Texture3D), t.IsStruct,
          decide (t.BaseClass = TyClass.String)].count true) = 1) ∧
    (∀ (b : TyClass) (q : Nat) (d : Option Nat),
      (Ty.mk b q 4 4 0 d).IsMatrix = true ∧ (Ty.mk b q 4 4 0 d).IsVector = false ∧
        (Ty.mk b q 4 4 0 d).IsScalar = false) := by
  refine ⟨?_, ?_, ?_⟩
  · intro t
    simp only [Ty.IsScalar, Ty.IsVector]
    cases t.IsArray <;> cases t.IsMatrix <;> cases t.IsNumeric <;>
      cases decide (1 < t.Rows) <;> simp
  · intro t
    rcases t with ⟨b, q, r, c, a, d⟩
    cases b <;> rfl
  · intro b q d
    refine ⟨rfl, rfl, ?_⟩
    simp [Ty.IsScalar, Ty.IsArray, Ty.IsMatrix, Ty.IsVector]

/-- C3: `IsTexture` is true exactly for `Texture1D` and `Texture2D` (the
encoded range excludes `Texture3D`), and `IsSampler` exactly for
`Sampler1D`..`Sampler3D`. -/
theorem texture_and_sampler_ranges :
    ∀ t : Ty,
      (t.IsTexture = true ↔
        t.BaseClass = TyClass.Texture1D ∨ t.BaseClass = TyClass.Texture2D) ∧
      (t.IsSampler = true ↔
        t.BaseClass = TyClass.Sampler1D ∨ t.BaseClass = TyClass.Sampler2D ∨
          t.BaseClass = TyClass.Sampler3D) := by
  intro t
  rcases t with ⟨b, q, r, c, a, d⟩
  cases b <;> simp [Ty.IsTexture, Ty.IsSampler, TyClass.toNat]

/-- C4 (counterexample): the shape tagged `nodeid::Annotation` is a concrete
tagged shape of the taxonomy yet belongs to none of the three capability
families — `struct Annotation : public node` derives directly from the node
header, not from Expression, Statement or Declaration. -/
theorem annotation_shape_outside_all_families :
    tagOf NodeShape.Annotation = nodeid.Annotation ∧
      isExpression NodeShape.Annotation = false ∧
      isStatement NodeShape.Annotation = false ∧
      isDeclaration NodeShape.Annotation = false := by
  refine ⟨rfl, rfl, rfl, rfl⟩

/-- C4 (amended): every concrete tagged node shape other than the Annotation
shape belongs to exactly one of the three capability families, and the
Annotation shape belongs to none. -/
theorem families_partition_all_shapes_except_annotation :
    ∀ s : NodeShape,
      ((isExpression s).toNat + (isStatement s).toNat + (isDeclaration s).toNat = 1)
        ↔ s ≠ NodeShape.Annotation := by
  decide

/-- C5: `make_node<T>(location)` returns a node whose tag is the tag fixed by
the shape's own constructor (never caller-supplied) and whose location field
equals the supplied location argument. -/
theorem make_node_stamps_tag_and_location :
    ∀ (s : NodeShape) (L : location),
      (make_node s L).id = tagOf s ∧ (make_node s L).loc = L :=
  fun _ _ => ⟨rfl, rfl⟩

/-- C6: when no existing page satisfies the fit test `cursor + size <
capacity`, `add` appends a fresh page of capacity `max 4096 size` holding the
new slot — and the footprint always fits in that page, so no allocation fails
solely because every existing page is full. -/
theorem add_appends_page_when_none_fits (pool : List page) (size : Nat)
    (h : ∀ p ∈ pool, ¬ p.cursor + size < p.capacity) :
    addSlot size pool =
        pool ++ [{ capacity := max 4096 size, slots := [size], cursor := size }] ∧
      size ≤ max 4096 size := by
  refine ⟨?_, Nat.le_max_right 4096 size⟩
  induction pool with
  | nil => rfl
  | cons p ps ih =>
    have hp : ¬ p.cursor + size < p.capacity := h p (List.mem_cons_self p ps)
    simp only [addSlot, if_neg hp, List.cons_append]
    exact congrArg (p :: ·) (ih fun q hq => h q (List.mem_cons_of_mem p hq))

/-- C6 witness: a pool whose one page (capacity 4096, cursor 4090) cannot fit
a 24-byte footprint gets a fresh 4096-byte page holding it. -/
theorem add_appends_page_when_none_fits_witness :
    addSlot 24 [{ capacity := 4096, slots := [4090], cursor := 4090 }] =
        [{ capacity := 4096, slots := [4090], cursor := 4090 }] ++
          [{ capacity := max 4096 24, slots := [24], cursor := 24 }] ∧
      24 ≤ max 4096 24 :=
  add_appends_page_when_none_fits
    [{ capacity := 4096, slots := [4090], cursor := 4090 }] 24 (by decide)

/-- C7: the classification predicates follow the stated rules for every
TypeDescriptor value, and the Float 1x1 non-array value is a scalar and not
an array. -/
theorem classification_rules :
    (∀ t : Ty,
      (t.IsArray = true ↔ t.ArrayLength ≠ 0) ∧
      (t.IsMatrix = true ↔ 1 ≤ t.Rows ∧ 1 < t.Cols) ∧
      (t.IsVector = true ↔ 1 < t.Rows ∧ t.IsMatrix = false) ∧
      (t.IsScalar = true ↔
        t.IsArray = false ∧ t.IsMatrix = false ∧ t.IsVector = false ∧
          t.IsNumeric = true) ∧
      (t.IsNumeric = true ↔
        t.IsBoolean = true ∨ t.IsIntegral = true ∨ t.IsFloatingPoint = true)) ∧
    (∀ (q : Nat) (d : Option Nat),
      (Ty.mk TyClass.Float q 1 1 0 d).IsScalar = true ∧
        (Ty.mk TyClass.Float q 1 1 0 d).IsArray = false) := by
  constructor
  · intro t
    refine ⟨?_, ?_, ?_, ?_, ?_⟩
    · simp [Ty.IsArray]
    · simp [Ty.IsMatrix]
    · simp [Ty.IsVector]
    · simp [Ty.IsScalar, and_assoc]
    · simp [Ty.IsNumeric, or_assoc]
  · intro q d
    exact ⟨rfl, rfl⟩

/-- C8: `HasQualifier(q)` is true exactly when all bits of `q` are set in the
value's qualifier mask; `HasQualifier(InOut)` therefore requires both the
`In` and `Out` bits (`HasQualifier In` and `HasQualifier Out`), and a mask
holding only the `In` bit fails `HasQualifier(InOut)`. -/
theorem hasQualifier_checks_all_bits :
    (∀ (t : Ty) (q : Nat),
      t.HasQualifier q = true ↔
        ∀ i, q.testBit i = true → t.Qualifiers.testBit i = true) ∧
    (∀ t : Ty,
      t.HasQualifier Qualifier.InOut = true ↔
        t.HasQualifier Qualifier.In = true ∧ t.HasQualifier Qualifier.Out = true) ∧
    (Ty.mk TyClass.Float Qualifier.In 0 0 0 none).HasQualifier Qualifier.InOut
      = false := by
  refine ⟨?_, ?_, by decide⟩
  · intro t q
    simp only [Ty.HasQualifier, decide_eq_true_eq]
    exact land_eq_self_iff_testBits t.Qualifiers q
  · intro t
    simp only [Ty.HasQualifier, decide_eq_true_eq]
    rw [land_eq_self_iff_testBits, land_eq_self_iff_testBits,
      land_eq_self_iff_testBits]
    simp only [Qualifier.InOut, Nat.testBit_lor]
    constructor
    · intro h
      constructor
      · intro i hi
        exact h i (by rw [hi, Bool.true_or])
      · intro i hi
        exact h i (by rw [hi, Bool.or_true])
    · intro h i hi
      rcases Bool.or_eq_true_iff.mp hi with h5 | h6
      · exact h.1 i h5
      · exact h.2 i h6

/-- C9: a default-constructed `Pass::States` has `DepthFunc = LESS`,
`BlendEnable = false`, `RenderTargetWriteMask = 0xF`, `SrcBlend = ONE` and
`DestBlend = ZERO`; a default-constructed `Variable::Properties` has the
three filters `LINEAR` and the three address modes `CLAMP`. -/
theorem default_render_states_and_properties :
    defaultStates.DepthFunc = PassStates.LESS ∧
      defaultStates.BlendEnable = false ∧
      defaultStates.RenderTargetWriteMask = 0xF ∧
      defaultStates.SrcBlend = PassStates.ONE ∧
      defaultStates.DestBlend = PassStates.ZERO ∧
      defaultProperties.MinFilter = Props.LINEAR ∧
      defaultProperties.MagFilter = Props.LINEAR ∧
      defaultProperties.MipFilter = Props.LINEAR ∧
      defaultProperties.AddressU = Props.CLAMP ∧
      defaultProperties.AddressV = Props.CLAMP ∧
      defaultProperties.AddressW = Props.CLAMP :=
  ⟨rfl, rfl, rfl, rfl, rfl, rfl, rfl, rfl, rfl, rfl, rfl⟩

/-- C10: freshly constructed nodes have their cross-reference and payload
fields in the defined empty state: the five resolved references are null,
all four swizzle mask entries are -1, and all 16 literal union slots are
zero. -/
theorem fresh_nodes_have_empty_cross_references :
    FX.mkLValue.Reference = none ∧
      FX.mkCall.Callee = none ∧
      FX.mkFieldSelection.Field = none ∧
      FX.mkVariable.Initializer = none ∧
      FX.mkFunction.Definition = none ∧
      FX.mkSwizzle.Mask = [-1, -1, -1, -1] ∧
      FX.mkLiteral.Value.length = 16 ∧
      (∀ x ∈ FX.mkLiteral.Value, x = 0) := by
  refine ⟨rfl, rfl, rfl, rfl, rfl, rfl, rfl, ?_⟩
  decide
